import Mathlib

/-!
Verification of the LMS backend's authorization-gateway logic
(course listing, course creation, enrollment, assignment submission
and grading) against a shallow embedding of the Go handlers.

Modelling conventions:
- Appwrite document collections become Lean lists of records; document
  ids are strings, `GetDocument` becomes `List.find?` by id and
  `UpdateDocument` with a partial attribute map becomes a `List.map`
  that rewrites exactly the supplied fields of the matching document.
- The Permit.io PDP (`permitClient.Check(ctx, user, action, resource)`,
  which in Go returns `(bool, error)`) becomes a function
  `PDP : String → String → String → PDPResult` where `PDPResult.error`
  stands for a non-nil Go error (transport failure / timeout) and
  `allow` / `deny` for `(true, nil)` / `(false, nil)`.
- Timestamps (`time.Now()`, parsed due dates) are modelled as `Nat`;
  Go's `time.Parse` is an abstract parameter `parseDate : String → Option Nat`
  (`none` stands for a parse error).
- Each Go handler becomes a pure function from its request, the current
  store contents and the PDP to a result value (one constructor per
  distinct `respondWithError` / success exit of the handler) together
  with the store contents after the handler ran.  Where a claim is about
  which external calls happen, the model also exposes the list of PDP
  check calls the handler issues.
-/

/-- Outcome of a single PDP check: `allow`/`deny` mirror the boolean the
Go Permit client returns with a nil error, `error` mirrors a non-nil
error (unreachable PDP, timeout). -/
inductive PDPResult where
  | allow
  | deny
  | error
deriving Repr, DecidableEq

/-- The policy decision point as consumed by the handlers: arguments are
user id, action, and resource string (e.g. `"course:" ++ id`). -/
def PDP : Type := String → String → String → PDPResult

/-- A course document, as in the `Course` struct shared by the Go
function handlers (`id`, `title`, `description`, `teacherId`,
`studentIds`). -/
structure Course where
  id : String
  title : String
  description : String
  teacherId : String
  studentIds : List String
deriving Repr, DecidableEq

/-- An assignment document, as in the Go `Assignment` struct.  `dueDate`
keeps the stored string form; it is parsed at the point of use, exactly
as the Go code calls `time.Parse` inside the submit handler. -/
structure Assignment where
  id : String
  title : String
  description : String
  courseId : String
  dueDate : String
deriving Repr, DecidableEq

/-- A submission document, as in the Go `Submission` struct.
`submittedAt` is a `Nat` timestamp (Go stores a formatted time string);
`grade` is `Int` like the Go `int` field. -/
structure Submission where
  id : String
  assignmentId : String
  studentId : String
  content : String
  submittedAt : Nat
  grade : Int
  feedback : String
deriving Repr, DecidableEq

/-! ## List courses (`get_courses.go`, `getCourses`) -/

/-- The student branch of `getCourses`: the loop over all courses that
checks `(userID, "read", "course:"+course.ID)` against the PDP and
keeps the course only on `allow`; a check error is logged and the
course skipped (`continue`), a `deny` skips it as well. -/
def filterStudentCourses (pdp : PDP) (userID : String) : List Course → List Course
  | [] => []
  | c :: rest =>
    match pdp userID "read" ("course:" ++ c.id) with
    | .allow => c :: filterStudentCourses pdp userID rest
    | .deny => filterStudentCourses pdp userID rest
    | .error => filterStudentCourses pdp userID rest

/-- `getCourses` from `get_courses.go`: `admin` lists every course,
`teacher` lists with the server-side filter `teacherId == userID`,
`student` runs the PDP filter loop, and any other role falls through
the `switch` and returns the nil slice. -/
def getCourses (pdp : PDP) (courses : List Course) (userID userRole : String) :
    List Course :=
  if userRole = "admin" then courses
  else if userRole = "teacher" then courses.filter (fun c => c.teacherId == userID)
  else if userRole = "student" then filterStudentCourses pdp userID courses
  else []

/-- The PDP check calls `getCourses` issues: none for `admin` and
`teacher` (their branches only hit the document store), one call per
course in the student loop, and none in the fall-through branch. -/
def getCoursesPdpCalls (courses : List Course) (userID userRole : String) :
    List (String × String × String) :=
  if userRole = "admin" then []
  else if userRole = "teacher" then []
  else if userRole = "student" then
    courses.map (fun c => (userID, "read", "course:" ++ c.id))
  else []

theorem mem_filterStudentCourses (pdp : PDP) (uid : String) (c : Course) :
    ∀ courses : List Course,
      c ∈ filterStudentCourses pdp uid courses ↔
        c ∈ courses ∧ pdp uid "read" ("course:" ++ c.id) = .allow := by
  intro courses
  induction courses with
  | nil => simp [filterStudentCourses]
  | cons a rest ih =>
    cases hres : pdp uid "read" ("course:" ++ a.id) with
    | allow =>
      simp only [filterStudentCourses, hres, List.mem_cons]
      constructor
      · rintro (rfl | hc)
        · exact ⟨Or.inl rfl, hres⟩
        · exact ⟨Or.inr (ih.mp hc).1, (ih.mp hc).2⟩
      · rintro ⟨rfl | hc, hallow⟩
        · exact Or.inl rfl
        · exact Or.inr (ih.mpr ⟨hc, hallow⟩)
    | deny =>
      simp only [filterStudentCourses, hres, List.mem_cons]
      constructor
      · intro hc
        exact ⟨Or.inr (ih.mp hc).1, (ih.mp hc).2⟩
      · rintro ⟨rfl | hc, hallow⟩
        · exact absurd hres (by simp [hallow])
        · exact ih.mpr ⟨hc, hallow⟩
    | error =>
      simp only [filterStudentCourses, hres, List.mem_cons]
      constructor
      · intro hc
        exact ⟨Or.inr (ih.mp hc).1, (ih.mp hc).2⟩
      · rintro ⟨rfl | hc, hallow⟩
        · exact absurd hres (by simp [hallow])
        · exact ih.mpr ⟨hc, hallow⟩

/-- C1: for a principal with role `student`, `getCourses` returns exactly
the courses for which the PDP check `(userID, read, course:id)` answers
allow: every returned course has a PDP allow, no course without an allow
(whether denied or failed with a transport error) is returned, and the
operation still returns a list — a per-course PDP error only excludes
that course. -/
theorem C1_student_listing_is_pdp_allow_filter
    (pdp : PDP) (courses : List Course) (uid : String) (c : Course) :
    c ∈ getCourses pdp courses uid "student" ↔
      c ∈ courses ∧ pdp uid "read" ("course:" ++ c.id) = .allow := by
  simp only [getCourses, if_neg (by decide : ¬ ("student" = "admin")),
    if_neg (by decide : ¬ ("student" = "teacher")), if_pos rfl]
  exact mem_filterStudentCourses pdp uid c courses

/-! ## Create course (`create_course.go`, function handler) -/

/-- The create-course function request body: `userId`, `userRole`,
`title`, `description` (the function handler has no teacherId field;
the created course's teacherId is always the caller). -/
structure CreateCourseRequest where
  userID : String
  userRole : String
  title : String
  description : String
deriving Repr, DecidableEq

/-- Exits of the create-course function handler, one per
`respondWithError` / `respondWithSuccess` call that is reachable after
request parsing. -/
inductive CreateResult where
  | pdpError
  | permDenied
  | ok (c : Course)
deriving Repr, DecidableEq

/-- `main` of `create_course.go`: check the PDP for
`(userID, create, course)` first — a check error or a deny returns an
error response before any document-store call — and only on allow
create the course document `{title, description, teacherId: userID,
studentIds: []}` with a store-generated id.  The result pairs the
response with the course collection after the handler ran.  (The
post-write `SyncResource` call is best-effort and touches no document,
so it does not appear in the store component.) -/
def createCourse (pdp : PDP) (store : List Course) (req : CreateCourseRequest)
    (freshId : String) : CreateResult × List Course :=
  match pdp req.userID "create" "course" with
  | .error => (.pdpError, store)
  | .deny => (.permDenied, store)
  | .allow =>
    let c : Course := ⟨freshId, req.title, req.description, req.userID, []⟩
    (.ok c, store ++ [c])

/-- C2: the PDP check on `(create, course)` happens before any write:
whenever the PDP does not answer allow — a deny or a transport
error/timeout — the create-course handler returns an error response and
the course collection is unchanged (no document was created). -/
theorem C2_create_checks_pdp_before_write
    (pdp : PDP) (store : List Course) (req : CreateCourseRequest) (freshId : String)
    (h : pdp req.userID "create" "course" ≠ .allow) :
    ((createCourse pdp store req freshId).1 = .pdpError ∨
      (createCourse pdp store req freshId).1 = .permDenied) ∧
    (createCourse pdp store req freshId).2 = store := by
  cases hres : pdp req.userID "create" "course" with
  | allow => exact absurd hres h
  | deny => simp [createCourse, hres]
  | error => simp [createCourse, hres]

/-- Concrete run discharging the hypothesis of
`C2_create_checks_pdp_before_write`: a PDP that denies everything. -/
theorem C2_create_checks_pdp_before_write_witness :
    ((createCourse (fun _ _ _ => .deny) [] ⟨"t1", "teacher", "T", "D"⟩ "c1").1 = .pdpError ∨
      (createCourse (fun _ _ _ => .deny) [] ⟨"t1", "teacher", "T", "D"⟩ "c1").1 = .permDenied) ∧
    (createCourse (fun _ _ _ => .deny) [] ⟨"t1", "teacher", "T", "D"⟩ "c1").2 = [] :=
  C2_create_checks_pdp_before_write (fun _ _ _ => .deny) [] ⟨"t1", "teacher", "T", "D"⟩ "c1"
    (by decide)

/-- C8: round-trip — when the PDP allows the create, the course created
by principal P carries `teacherId = P.id` and an empty `studentIds`,
and listing courses as P with role `teacher` (the server-side
`teacherId == P.id` filter) includes the new course. -/
theorem C8_create_then_list_roundtrip
    (pdp : PDP) (store : List Course) (req : CreateCourseRequest) (freshId : String)
    (hallow : pdp req.userID "create" "course" = .allow) :
    ∃ c : Course,
      (createCourse pdp store req freshId).1 = .ok c ∧
      c.teacherId = req.userID ∧ c.studentIds = [] ∧
      c ∈ getCourses pdp (createCourse pdp store req freshId).2 req.userID "teacher" := by
  refine ⟨⟨freshId, req.title, req.description, req.userID, []⟩, ?_, rfl, rfl, ?_⟩
  · simp [createCourse, hallow]
  · simp [createCourse, hallow, getCourses]

/-- Concrete run discharging the hypothesis of
`C8_create_then_list_roundtrip`: an always-allowing PDP. -/
theorem C8_create_then_list_roundtrip_witness :
    ∃ c : Course,
      (createCourse (fun _ _ _ => .allow) [] ⟨"t1", "teacher", "T", "D"⟩ "c1").1 = .ok c ∧
      c.teacherId = "t1" ∧ c.studentIds = [] ∧
      c ∈ getCourses (fun _ _ _ => .allow)
          (createCourse (fun _ _ _ => .allow) [] ⟨"t1", "teacher", "T", "D"⟩ "c1").2
          "t1" "teacher" :=
  C8_create_then_list_roundtrip (fun _ _ _ => .allow) [] ⟨"t1", "teacher", "T", "D"⟩ "c1" rfl

/-! ## Enroll in course (`enroll_course.go`) -/

/-- The enroll function request body: `userId`, `userRole`, `courseId`. -/
structure EnrollRequest where
  userID : String
  userRole : String
  courseID : String
deriving Repr, DecidableEq

/-- Exits of the enroll handler, one per `respondWithError` /
`respondWithSuccess` call reachable after request parsing. -/
inductive EnrollResult where
  | roleError
  | pdpError
  | permDenied
  | notFound
  | alreadyEnrolled
  | ok (c : Course)
deriving Repr, DecidableEq

/-- `UpdateDocument("courses", courseID, {studentIds: ids})`: rewrite
exactly the `studentIds` attribute of the matching course document. -/
def updateCourseStudentIds (store : List Course) (courseID : String)
    (ids : List String) : List Course :=
  store.map (fun c => if c.id == courseID then { c with studentIds := ids } else c)

/-- `main` of `enroll_course.go`: reject non-students before any PDP or
store call; check the PDP for `(userID, enroll, course:courseID)`; fetch
the course (not found → error); reject when `userID` is already in
`studentIds` without updating anything; otherwise append `userID` to
`studentIds` and write the updated list back.  (The trailing
`SyncResource` is best-effort and touches no document.) -/
def enrollCourse (pdp : PDP) (store : List Course) (req : EnrollRequest) :
    EnrollResult × List Course :=
  if req.userRole ≠ "student" then (.roleError, store)
  else
    match pdp req.userID "enroll" ("course:" ++ req.courseID) with
    | .error => (.pdpError, store)
    | .deny => (.permDenied, store)
    | .allow =>
      match store.find? (fun c => c.id == req.courseID) with
      | none => (.notFound, store)
      | some course =>
        if course.studentIds.contains req.userID then (.alreadyEnrolled, store)
        else
          let ids := course.studentIds ++ [req.userID]
          (.ok { course with studentIds := ids },
            updateCourseStudentIds store req.courseID ids)

theorem find_updateCourseStudentIds (store : List Course) (cid : String)
    (ids : List String) (course : Course)
    (h : store.find? (fun c => c.id == cid) = some course) :
    (updateCourseStudentIds store cid ids).find? (fun c => c.id == cid) =
      some { course with studentIds := ids } := by
  induction store with
  | nil => simp at h
  | cons a rest ih =>
    by_cases ha : (a.id == cid) = true
    · rw [@List.find?_cons_of_pos _ (fun c => c.id == cid) a rest ha] at h
      injection h with h
      subst h
      have ha2 : (({ a with studentIds := ids } : Course).id == cid) = true := ha
      simp only [updateCourseStudentIds, List.map_cons]
      rw [if_pos ha]
      exact List.find?_cons_of_pos _ ha2
    · rw [@List.find?_cons_of_neg _ (fun c => c.id == cid) a rest ha] at h
      simp only [updateCourseStudentIds, List.map_cons]
      rw [if_neg ha, @List.find?_cons_of_neg Course (fun c => c.id == cid) a _ ha]
      exact ih h

/-- C4: first enrollment of a student not yet in `studentIds` succeeds
and appends the student's id exactly once (its count in the updated list
is 1); repeating the same enroll call on the resulting store fails with
the already-enrolled conflict error and leaves the store untouched — a
rejection, not a no-op and not a duplicate insert. -/
theorem C4_enroll_once_then_conflict
    (pdp : PDP) (store : List Course) (req : EnrollRequest) (course : Course)
    (hrole : req.userRole = "student")
    (hpdp : pdp req.userID "enroll" ("course:" ++ req.courseID) = .allow)
    (hfind : store.find? (fun c => c.id == req.courseID) = some course)
    (hnot : req.userID ∉ course.studentIds) :
    (enrollCourse pdp store req).1 =
      .ok { course with studentIds := course.studentIds ++ [req.userID] } ∧
    (course.studentIds ++ [req.userID]).count req.userID = 1 ∧
    enrollCourse pdp (enrollCourse pdp store req).2 req =
      (.alreadyEnrolled, (enrollCourse pdp store req).2) := by
  have hcont : course.studentIds.contains req.userID = false := by
    cases hc : course.studentIds.contains req.userID
    · rfl
    · exact absurd (List.elem_iff.mp hc) hnot
  have hrun : enrollCourse pdp store req =
      (.ok { course with studentIds := course.studentIds ++ [req.userID] },
        updateCourseStudentIds store req.courseID
          (course.studentIds ++ [req.userID])) := by
    simp [enrollCourse, hrole, hpdp, hfind, hcont, hnot]
  refine ⟨by rw [hrun], ?_, ?_⟩
  · rw [List.count_append]
    simp [List.count_eq_zero_of_not_mem hnot]
  · have hfind2 := find_updateCourseStudentIds store req.courseID
      (course.studentIds ++ [req.userID]) course hfind
    have hmem : req.userID ∈ course.studentIds ++ [req.userID] := by simp
    rw [hrun]
    simp [enrollCourse, hrole, hpdp, hfind2, hmem]

/-- Concrete run discharging the hypotheses of
`C4_enroll_once_then_conflict`: one course, an empty roster, an
always-allowing PDP. -/
theorem C4_enroll_once_then_conflict_witness :
    (enrollCourse (fun _ _ _ => .allow) [⟨"c1", "T", "D", "t1", []⟩]
        ⟨"s1", "student", "c1"⟩).1 =
      .ok ⟨"c1", "T", "D", "t1", ["s1"]⟩ ∧
    (([] : List String) ++ ["s1"]).count "s1" = 1 ∧
    enrollCourse (fun _ _ _ => .allow)
        (enrollCourse (fun _ _ _ => .allow) [⟨"c1", "T", "D", "t1", []⟩]
          ⟨"s1", "student", "c1"⟩).2 ⟨"s1", "student", "c1"⟩ =
      (.alreadyEnrolled,
        (enrollCourse (fun _ _ _ => .allow) [⟨"c1", "T", "D", "t1", []⟩]
          ⟨"s1", "student", "c1"⟩).2) :=
  C4_enroll_once_then_conflict (fun _ _ _ => .allow) [⟨"c1", "T", "D", "t1", []⟩]
    ⟨"s1", "student", "c1"⟩ ⟨"c1", "T", "D", "t1", []⟩ rfl rfl (by decide) (by decide)

/-! ## Submit assignment (`create_course.go`, submit function handler) -/

/-- The submit-assignment function request body. -/
structure SubmitRequest where
  userID : String
  userRole : String
  assignmentID : String
  content : String
deriving Repr, DecidableEq

/-- Exits of the submit handler, one per `respondWithError` /
`respondWithSuccess` call reachable after request parsing. -/
inductive SubmitResult where
  | roleError
  | pdpError
  | permDenied
  | assignmentNotFound
  | dateParseError
  | pastDue
  | ok (s : Submission)
deriving Repr, DecidableEq

/-- The submit handler: reject non-students; check the PDP for
`(userID, submit, assignment:assignmentID)`; fetch the assignment;
parse its due date with `time.Parse` (modelled by the abstract
`parseDate`, `none` = parse error); if `time.Now()` is after the due
date fail with the past-due error and create nothing; otherwise create
the submission `{assignmentId, studentId: userID, content, submittedAt:
now, grade: 0, feedback: ""}`.  Returns the response together with the
submissions collection after the handler ran. -/
def submitAssignment (pdp : PDP) (parseDate : String → Option Nat)
    (assignments : List Assignment) (subs : List Submission)
    (req : SubmitRequest) (now : Nat) (freshId : String) :
    SubmitResult × List Submission :=
  if req.userRole ≠ "student" then (.roleError, subs)
  else
    match pdp req.userID "submit" ("assignment:" ++ req.assignmentID) with
    | .error => (.pdpError, subs)
    | .deny => (.permDenied, subs)
    | .allow =>
      match assignments.find? (fun a => a.id == req.assignmentID) with
      | none => (.assignmentNotFound, subs)
      | some a =>
        match parseDate a.dueDate with
        | none => (.dateParseError, subs)
        | some due =>
          if due < now then (.pastDue, subs)
          else
            let s : Submission := ⟨freshId, req.assignmentID, req.userID,
              req.content, now, 0, ""⟩
            (.ok s, subs ++ [s])

/-- C5: a submit attempt after the due date fails with the past-due
business-rule error and creates no submission document, even when the
PDP allows the submit action; and the due-date gate sits after the PDP
check — when the PDP denies, the handler stops with the permission
error instead of the past-due error. -/
theorem C5_past_due_submit_rejected_after_pdp
    (pdp : PDP) (parseDate : String → Option Nat)
    (assignments : List Assignment) (subs : List Submission)
    (req : SubmitRequest) (now : Nat) (freshId : String) (a : Assignment) (due : Nat)
    (hrole : req.userRole = "student")
    (hfind : assignments.find? (fun x => x.id == req.assignmentID) = some a)
    (hdate : parseDate a.dueDate = some due)
    (hlate : due < now) :
    (pdp req.userID "submit" ("assignment:" ++ req.assignmentID) = .allow →
      submitAssignment pdp parseDate assignments subs req now freshId =
        (.pastDue, subs)) ∧
    (pdp req.userID "submit" ("assignment:" ++ req.assignmentID) = .deny →
      submitAssignment pdp parseDate assignments subs req now freshId =
        (.permDenied, subs)) := by
  constructor
  · intro hallow
    simp [submitAssignment, hrole, hallow, hfind, hdate, hlate]
  · intro hdeny
    simp [submitAssignment, hrole, hdeny]

/-- Concrete run discharging the hypotheses of
`C5_past_due_submit_rejected_after_pdp`: one assignment whose due date
parses to 10, submitted at time 11. -/
theorem C5_past_due_submit_rejected_after_pdp_witness :
    ((fun _ _ _ => PDPResult.allow) "s1" "submit" ("assignment:" ++ "a1") = .allow →
      submitAssignment (fun _ _ _ => .allow) (fun _ => some 10)
        [⟨"a1", "HW", "D", "c1", "2020-01-01"⟩] [] ⟨"s1", "student", "a1", "essay"⟩ 11 "sub1" =
        (.pastDue, [])) ∧
    ((fun _ _ _ => PDPResult.allow) "s1" "submit" ("assignment:" ++ "a1") = .deny →
      submitAssignment (fun _ _ _ => .allow) (fun _ => some 10)
        [⟨"a1", "HW", "D", "c1", "2020-01-01"⟩] [] ⟨"s1", "student", "a1", "essay"⟩ 11 "sub1" =
        (.permDenied, [])) :=
  C5_past_due_submit_rejected_after_pdp (fun _ _ _ => .allow) (fun _ => some 10)
    [⟨"a1", "HW", "D", "c1", "2020-01-01"⟩] [] ⟨"s1", "student", "a1", "essay"⟩ 11 "sub1"
    ⟨"a1", "HW", "D", "c1", "2020-01-01"⟩ 10 rfl (by decide) rfl (by decide)

/-! ## Grade assignment (grade function handler) -/

/-- The grade-assignment function request body: `userId`, `userRole`,
`submissionId`, `grade`, `feedback`. -/
structure GradeRequest where
  userID : String
  userRole : String
  submissionID : String
  grade : Int
  feedback : String
deriving Repr, DecidableEq

/-- Exits of the grade handler, one per `respondWithError` /
`respondWithSuccess` call reachable after request parsing. -/
inductive GradeResult where
  | roleError
  | submissionNotFound
  | pdpError
  | permDenied
  | ok (s : Submission)
deriving Repr, DecidableEq

/-- `UpdateDocument("submissions", submissionID, {grade, feedback})`:
rewrite exactly the `grade` and `feedback` attributes of the matching
submission document. -/
def updateSubmissionDoc (subs : List Submission) (sid : String) (g : Int)
    (fb : String) : List Submission :=
  subs.map (fun s => if s.id == sid then { s with grade := g, feedback := fb } else s)

/-- The grade handler: reject callers whose role is neither `teacher`
nor `admin` before the database or PDP is touched; fetch the submission
to learn its `assignmentId`; check the PDP for
`(userID, grade, assignment:assignmentId)`; on allow write the
requested grade and feedback (no validation of the grade value is
performed).  Returns the response, the submissions collection after the
handler ran, and the list of PDP check calls the handler issued. -/
def gradeAssignment (pdp : PDP) (subs : List Submission) (req : GradeRequest) :
    GradeResult × List Submission × List (String × String × String) :=
  if req.userRole ≠ "teacher" ∧ req.userRole ≠ "admin" then (.roleError, subs, [])
  else
    match subs.find? (fun s => s.id == req.submissionID) with
    | none => (.submissionNotFound, subs, [])
    | some s =>
      let call := (req.userID, "grade", "assignment:" ++ s.assignmentId)
      match pdp req.userID "grade" ("assignment:" ++ s.assignmentId) with
      | .error => (.pdpError, subs, [call])
      | .deny => (.permDenied, subs, [call])
      | .allow =>
        (.ok { s with grade := req.grade, feedback := req.feedback },
          updateSubmissionDoc subs req.submissionID req.grade req.feedback, [call])

/-- C6: a grade request from a principal with role `student` fails with
the authorization error, issues no PDP check call at all, and leaves the
submissions collection unchanged — the local role check runs before any
PDP interaction. -/
theorem C6_student_cannot_grade_no_pdp_call
    (pdp : PDP) (subs : List Submission) (req : GradeRequest)
    (hrole : req.userRole = "student") :
    (gradeAssignment pdp subs req).1 = .roleError ∧
    (gradeAssignment pdp subs req).2.2 = [] ∧
    (gradeAssignment pdp subs req).2.1 = subs := by
  have h : req.userRole ≠ "teacher" ∧ req.userRole ≠ "admin" := by
    rw [hrole]; exact ⟨by decide, by decide⟩
  simp [gradeAssignment, h]

/-- Concrete run discharging the hypothesis of
`C6_student_cannot_grade_no_pdp_call`. -/
theorem C6_student_cannot_grade_no_pdp_call_witness :
    (gradeAssignment (fun _ _ _ => .allow) [] ⟨"s1", "student", "sub1", 90, "ok"⟩).1 =
      .roleError ∧
    (gradeAssignment (fun _ _ _ => .allow) [] ⟨"s1", "student", "sub1", 90, "ok"⟩).2.2 = [] ∧
    (gradeAssignment (fun _ _ _ => .allow) [] ⟨"s1", "student", "sub1", 90, "ok"⟩).2.1 = [] :=
  C6_student_cannot_grade_no_pdp_call (fun _ _ _ => .allow) []
    ⟨"s1", "student", "sub1", 90, "ok"⟩ rfl

/-- The grade handler's store output is either the untouched input
collection (any error exit) or the collection with exactly the grade
and feedback attributes of the matching document rewritten. -/
theorem gradeAssignment_store_cases (pdp : PDP) (subs : List Submission)
    (req : GradeRequest) :
    (gradeAssignment pdp subs req).2.1 = subs ∨
      (gradeAssignment pdp subs req).2.1 =
        updateSubmissionDoc subs req.submissionID req.grade req.feedback := by
  unfold gradeAssignment
  split
  · exact Or.inl rfl
  · split
    · exact Or.inl rfl
    · split
      · exact Or.inl rfl
      · exact Or.inl rfl
      · exact Or.inr rfl

/-- C7 (counterexample): the claim that every successful grade operation
yields a grade in 1–100 and that no operation moves a submission back to
the ungraded sentinel 0 is false: grading a submission that already
holds grade 85 with a requested grade of 0 succeeds and the resulting
grade is 0, outside 1–100 and back at the ungraded sentinel. -/
theorem C7_grade_zero_accepted_counterexample :
    ∃ s : Submission,
      (gradeAssignment (fun _ _ _ => .allow)
          [⟨"sub1", "a1", "s1", "essay", 5, 85, ""⟩]
          ⟨"t1", "teacher", "sub1", 0, "redo"⟩).1 = .ok s ∧
      s.grade = 0 ∧ ¬ (1 ≤ s.grade ∧ s.grade ≤ 100) := by
  refine ⟨⟨"sub1", "a1", "s1", "essay", 5, 0, "redo"⟩, ?_, rfl, by decide⟩
  rfl

/-- C7 (amended): the grade handler performs no validation of the grade
value — every successful grade operation sets the submission's grade
and feedback to exactly the requested values, whatever they are
(including 0, the ungraded sentinel, and values outside 1–100). -/
theorem C7_grade_written_unvalidated
    (pdp : PDP) (subs : List Submission) (req : GradeRequest) (s : Submission)
    (h : (gradeAssignment pdp subs req).1 = .ok s) :
    s.grade = req.grade ∧ s.feedback = req.feedback := by
  unfold gradeAssignment at h
  split at h
  · exact absurd h (by simp)
  · split at h
    · exact absurd h (by simp)
    · split at h
      · exact absurd h (by simp)
      · exact absurd h (by simp)
      · injection h with h
        rw [← h]
        exact ⟨rfl, rfl⟩

/-- Concrete run discharging the hypothesis of
`C7_grade_written_unvalidated`: a grade of 150 is written verbatim. -/
theorem C7_grade_written_unvalidated_witness :
    (⟨"sub1", "a1", "s1", "essay", 5, 150, "wow"⟩ : Submission).grade = 150 ∧
    (⟨"sub1", "a1", "s1", "essay", 5, 150, "wow"⟩ : Submission).feedback = "wow" :=
  C7_grade_written_unvalidated (fun _ _ _ => .allow)
    [⟨"sub1", "a1", "s1", "essay", 5, 85, ""⟩]
    ⟨"t1", "teacher", "sub1", 150, "wow"⟩
    ⟨"sub1", "a1", "s1", "essay", 5, 150, "wow"⟩ rfl

/-- C10 (frame): the grade operation's document-store update touches
only the grade and feedback attributes — every document in the
submissions collection after the handler ran agrees with the document
at the same position before it on `id`, `assignmentId`, `studentId`,
`content` and `submittedAt`. -/
theorem C10_grade_update_preserves_other_fields
    (pdp : PDP) (subs : List Submission) (req : GradeRequest)
    (i : Nat) (hi : i < subs.length)
    (hok : ∃ s, (gradeAssignment pdp subs req).1 = .ok s) :
    ∃ hi2 : i < (gradeAssignment pdp subs req).2.1.length,
      ((gradeAssignment pdp subs req).2.1.get ⟨i, hi2⟩).id = (subs.get ⟨i, hi⟩).id ∧
      ((gradeAssignment pdp subs req).2.1.get ⟨i, hi2⟩).assignmentId =
        (subs.get ⟨i, hi⟩).assignmentId ∧
      ((gradeAssignment pdp subs req).2.1.get ⟨i, hi2⟩).studentId =
        (subs.get ⟨i, hi⟩).studentId ∧
      ((gradeAssignment pdp subs req).2.1.get ⟨i, hi2⟩).content =
        (subs.get ⟨i, hi⟩).content ∧
      ((gradeAssignment pdp subs req).2.1.get ⟨i, hi2⟩).submittedAt =
        (subs.get ⟨i, hi⟩).submittedAt := by
  rcases gradeAssignment_store_cases pdp subs req with hcase | hcase
  · rw [hcase]
    exact ⟨hi, rfl, rfl, rfl, rfl, rfl⟩
  · rw [hcase]
    have hlen : (updateSubmissionDoc subs req.submissionID req.grade req.feedback).length =
        subs.length := by
      simp [updateSubmissionDoc]
    refine ⟨by rw [hlen]; exact hi, ?_⟩
    have hget : (updateSubmissionDoc subs req.submissionID req.grade req.feedback).get
        ⟨i, by rw [hlen]; exact hi⟩ =
        (if ((subs.get ⟨i, hi⟩).id == req.submissionID) = true then
          { subs.get ⟨i, hi⟩ with grade := req.grade, feedback := req.feedback }
        else subs.get ⟨i, hi⟩) := by
      simp [updateSubmissionDoc]
    rw [hget]
    by_cases hid : ((subs.get ⟨i, hi⟩).id == req.submissionID) = true
    · rw [if_pos hid]
      exact ⟨rfl, rfl, rfl, rfl, rfl⟩
    · rw [if_neg hid]
      exact ⟨rfl, rfl, rfl, rfl, rfl⟩

/-- Concrete run discharging the hypotheses of
`C10_grade_update_preserves_other_fields`. -/
theorem C10_grade_update_preserves_other_fields_witness :
    ∃ hi2 : 0 < (gradeAssignment (fun _ _ _ => .allow)
        [⟨"sub1", "a1", "s1", "essay", 5, 0, ""⟩]
        ⟨"t1", "teacher", "sub1", 90, "good"⟩).2.1.length,
      (((gradeAssignment (fun _ _ _ => .allow)
        [⟨"sub1", "a1", "s1", "essay", 5, 0, ""⟩]
        ⟨"t1", "teacher", "sub1", 90, "good"⟩).2.1.get ⟨0, hi2⟩).id =
          (([⟨"sub1", "a1", "s1", "essay", 5, 0, ""⟩] :
            List Submission).get ⟨0, by decide⟩).id ∧
      ((gradeAssignment (fun _ _ _ => .allow)
        [⟨"sub1", "a1", "s1", "essay", 5, 0, ""⟩]
        ⟨"t1", "teacher", "sub1", 90, "good"⟩).2.1.get ⟨0, hi2⟩).assignmentId =
          (([⟨"sub1", "a1", "s1", "essay", 5, 0, ""⟩] :
            List Submission).get ⟨0, by decide⟩).assignmentId ∧
      ((gradeAssignment (fun _ _ _ => .allow)
        [⟨"sub1", "a1", "s1", "essay", 5, 0, ""⟩]
        ⟨"t1", "teacher", "sub1", 90, "good"⟩).2.1.get ⟨0, hi2⟩).studentId =
          (([⟨"sub1", "a1", "s1", "essay", 5, 0, ""⟩] :
            List Submission).get ⟨0, by decide⟩).studentId ∧
      ((gradeAssignment (fun _ _ _ => .allow)
        [⟨"sub1", "a1", "s1", "essay", 5, 0, ""⟩]
        ⟨"t1", "teacher", "sub1", 90, "good"⟩).2.1.get ⟨0, hi2⟩).content =
          (([⟨"sub1", "a1", "s1", "essay", 5, 0, ""⟩] :
            List Submission).get ⟨0, by decide⟩).content ∧
      ((gradeAssignment (fun _ _ _ => .allow)
        [⟨"sub1", "a1", "s1", "essay", 5, 0, ""⟩]
        ⟨"t1", "teacher", "sub1", 90, "good"⟩).2.1.get ⟨0, hi2⟩).submittedAt =
          (([⟨"sub1", "a1", "s1", "essay", 5, 0, ""⟩] :
            List Submission).get ⟨0, by decide⟩).submittedAt) :=
  C10_grade_update_preserves_other_fields (fun _ _ _ => .allow)
    [⟨"sub1", "a1", "s1", "essay", 5, 0, ""⟩]
    ⟨"t1", "teacher", "sub1", 90, "good"⟩ 0 (by decide)
    ⟨⟨"sub1", "a1", "s1", "essay", 5, 90, "good"⟩, rfl⟩

/-! ## Monolith handler `CreateCourse` and `AuthMiddleware` (`main.go`) -/

/-- A value stored in the request-context user map
(`map[string]interface{}` in Go); the handlers only ever read string
and string-slice entries, and a failed Go type assertion with the
two-value form yields the zero value. -/
inductive CtxVal where
  | str : String → CtxVal
  | strList : List String → CtxVal
deriving Repr, DecidableEq

/-- `m[k].(string)`: the string under key `k`, or `""` when the key is
absent or holds a non-string (the zero value of a failed two-value type
assertion). -/
def ctxString (m : List (String × CtxVal)) (k : String) : String :=
  match m.find? (fun p => p.1 == k) with
  | some (_, .str s) => s
  | _ => ""

/-- `m[k].([]string)`: the string slice under key `k`, or the nil slice
when the key is absent or holds a different type. -/
def ctxStrList (m : List (String × CtxVal)) (k : String) : List String :=
  match m.find? (fun p => p.1 == k) with
  | some (_, .strList l) => l
  | _ => []

/-- The user-info map `AuthMiddleware` in `main.go` installs into the
request context: keys `id`, `email`, `name` and `roles` (the role list,
defaulting to `["user"]` when the account stores no roles).  No key
named `role` is ever set.  (The `session` entry is neither a string nor
a string slice and is never read by the handlers modelled here, so it
is omitted.) -/
def authContext (id email name : String) (roles : List String) :
    List (String × CtxVal) :=
  [("id", .str id), ("email", .str email), ("name", .str name),
    ("roles", .strList roles)]

/-- The `CreateCourse` request body in `main.go`: `title`,
`description` and an optional `teacherId` override. -/
structure MainCreateReq where
  title : String
  description : String
  teacherId : String
deriving Repr, DecidableEq

/-- Exits of `main.go`'s `CreateCourse` handler reachable after body
parsing, one per `respondWithError` / success response. -/
inductive MainCreateResult where
  | titleRequired
  | permCheckFailed
  | notAuthorized
  | adminOnly
  | created (c : Course)
deriving Repr, DecidableEq

/-- `CreateCourse` from `main.go`, transcribed including its two slips:
`userRole` is read from context key `"role"`, which `AuthMiddleware`
never sets (it sets `"roles"`), so the assertion yields `""`; and the
admin-only guard reads the variable `newCourse`, which Go never
declares — the only consistent referent is the request's course data
(`courseData`), and the guard is transcribed on that reading.  Flow:
default `teacherId` to the caller whenever it is empty or `userRole`
is not `"admin"`; require a title; PDP check `(userID, create,
course)`; re-default an empty `teacherId`; reject a `teacherId` other
than the caller unless `"admin"` is among the context roles; create
the document `{title, description, teacherId, studentIds: []}`. -/
def mainCreateCourse (pdp : PDP) (user : List (String × CtxVal))
    (req : MainCreateReq) (store : List Course) (freshId : String) :
    MainCreateResult × List Course :=
  let userID := ctxString user "id"
  let userRole := ctxString user "role"
  let tid1 := if req.teacherId = "" ∨ userRole ≠ "admin" then userID else req.teacherId
  if req.title = "" then (.titleRequired, store)
  else
    match pdp userID "create" "course" with
    | .error => (.permCheckFailed, store)
    | .deny => (.notAuthorized, store)
    | .allow =>
      let tid2 := if tid1 = "" then userID else tid1
      if tid2 ≠ userID ∧ ¬ (ctxStrList user "roles").contains "admin" then
        (.adminOnly, store)
      else
        let c : Course := ⟨freshId, req.title, req.description, tid2, []⟩
        (.created c, store ++ [c])

/-- C3 (code evaluation at the failing input): with an always-allowing
PDP, a teacher principal `t1` submitting `teacherId = "t2"` does not
get the permission error the spec promises — the handler silently
creates the course with `teacherId = "t1"`; and an admin principal
`a1` submitting `teacherId = "t2"` does not get a course owned by
`t2` — the handler creates it with `teacherId = "a1"`, because
`ctxString user "role"` is `""` (the middleware stores only `"roles"`),
so the pre-check normalization overwrites the requested teacherId for
every caller and the admin-only guard can never fire. -/
theorem C3_teacher_override_is_silently_dropped :
    (mainCreateCourse (fun _ _ _ => .allow) (authContext "t1" "t1@x" "T1" ["teacher"])
        ⟨"T", "D", "t2"⟩ [] "c1").1 = .created ⟨"c1", "T", "D", "t1", []⟩ ∧
    (mainCreateCourse (fun _ _ _ => .allow) (authContext "a1" "a1@x" "A1" ["admin"])
        ⟨"T", "D", "t2"⟩ [] "c2").1 = .created ⟨"c2", "T", "D", "a1", []⟩ := by
  constructor
  · rfl
  · rfl

/-- C9: for a principal whose role is none of `admin`, `teacher`,
`student` — in particular the default `"user"` role the middleware
assigns when no roles are stored — `getCourses` falls through the role
switch: it returns the empty list without error and issues no PDP
check at all. -/
theorem C9_unknown_role_gets_empty_list_no_pdp
    (pdp : PDP) (courses : List Course) (uid role : String)
    (h1 : role ≠ "admin") (h2 : role ≠ "teacher") (h3 : role ≠ "student") :
    getCourses pdp courses uid role = [] ∧
    getCoursesPdpCalls courses uid role = [] := by
  constructor
  · simp [getCourses, h1, h2, h3]
  · simp [getCoursesPdpCalls, h1, h2, h3]

/-- Concrete run discharging the hypotheses of
`C9_unknown_role_gets_empty_list_no_pdp`: the default `"user"` role,
with a non-empty course collection and an always-allowing PDP. -/
theorem C9_unknown_role_gets_empty_list_no_pdp_witness :
    getCourses (fun _ _ _ => .allow) [⟨"c1", "T", "D", "t1", []⟩] "u1" "user" = [] ∧
    getCoursesPdpCalls [⟨"c1", "T", "D", "t1", []⟩] "u1" "user" = [] :=
  C9_unknown_role_gets_empty_list_no_pdp (fun _ _ _ => .allow)
    [⟨"c1", "T", "D", "t1", []⟩] "u1" "user" (by decide) (by decide) (by decide)
